import Mathlib

/-!
Verification development for the msme-campaign-central campaign execution
engine (backend/app/services): the template renderer
(template_service.py), the delivery channel clients and batch dispatchers
(email_service.py, whatsapp_service.py), and the campaign execution
orchestrator (campaign_service.py).

Python string primitives used by the services (str.replace, str.strip,
str.startswith, sorted, set) are modelled over List Char so that every
definition is executable and kernel-reducible. Network transport is
abstracted as per-job outcome oracles, since every client call catches its
own exceptions and reports a boolean.
-/

namespace MsmeCampaign

/-! ## Python string primitives, modelled over List Char -/

/-- Model of Python str.replace: replaces every non-overlapping occurrence
of pat, scanning left to right. Fuel is the length of the scanned list; a
match consumes at least one character, so fuel never runs out. An empty
pattern never matches (the services never pass one). -/
def pyReplaceAux (pat repl : List Char) : Nat → List Char → List Char
  | 0, l => l
  | fuel + 1, l =>
    match l with
    | [] => []
    | c :: rest =>
      if pat.isPrefixOf l && !pat.isEmpty then
        repl ++ pyReplaceAux pat repl fuel (l.drop pat.length)
      else
        c :: pyReplaceAux pat repl fuel rest

/-- Model of Python str.replace on String. -/
def pyReplace (s pat repl : String) : String :=
  String.mk (pyReplaceAux pat.data repl.data s.data.length s.data)

/-- Model of Python str.strip with no argument: drops whitespace from both
ends. -/
def pyStrip (s : String) : String :=
  String.mk (((s.data.dropWhile Char.isWhitespace).reverse.dropWhile Char.isWhitespace).reverse)

/-- Model of Python str.startswith for a single string prefix. -/
def pyStartsWith (s pre : String) : Bool :=
  pre.data.isPrefixOf s.data

/-- Model of Python str.lower restricted to ASCII (the filter criteria the
service compares are ASCII). -/
def pyLower (s : String) : String :=
  String.mk (s.data.map Char.toLower)

/-- Whether pat occurs as a contiguous sublist of the second argument. -/
def listContainsSub (pat : List Char) : List Char → Bool
  | [] => pat.isEmpty
  | c :: rest => pat.isPrefixOf (c :: rest) || listContainsSub pat rest

/-- Model of a SQL ilike "%pat%" match: case-insensitive containment. -/
def pyILike (pat s : String) : Bool :=
  listContainsSub (pyLower pat).data (pyLower s).data

/-- Model of Python set() for deduplication: keeps the first occurrence of
each element (the callers sort afterwards, so order is irrelevant). -/
def pyDedupAux (seen : List String) : List String → List String
  | [] => []
  | x :: xs => if seen.contains x then pyDedupAux seen xs else x :: pyDedupAux (x :: seen) xs

/-- Deduplication entry point. -/
def pyDedup (l : List String) : List String := pyDedupAux [] l

/-- Lexicographic code-point comparison, as Python compares strings. -/
def charListLe : List Char → List Char → Bool
  | [], _ => true
  | _ :: _, [] => false
  | a :: as, b :: bs => if a = b then charListLe as bs else decide (a < b)

/-- Insertion step for the model of Python sorted. -/
def insertSorted (x : String) : List String → List String
  | [] => [x]
  | y :: ys => if charListLe x.data y.data then x :: y :: ys else y :: insertSorted x ys

/-- Model of Python sorted on a list of strings. -/
def pySorted : List String → List String
  | [] => []
  | x :: xs => insertSorted x (pySorted xs)

/-- Model of the Python slicing loop for i in range(0, len(l), bs):
consecutive slices l[i:i+bs]. A slice takes one element and then bs - 1
more, so the recursion consumes at least one element per step; fuel is
the list length. (Python raises on step 0; the services always pass a
positive batch size, and this model then treats 0 like 1.) -/
def chunksGo (bs : Nat) : Nat → List α → List (List α)
  | 0, _ => []
  | _ + 1, [] => []
  | fuel + 1, a :: rest => (a :: rest.take (bs - 1)) :: chunksGo bs fuel (rest.drop (bs - 1))

/-! ## Data model: the vendor attributes the services read

The engine reads vendors through the attribute names used in
template_service.get_vendor_variables and campaign_service; nullable
columns are Options. -/

structure Vendor where
  id : String
  name : Option String := none
  company_name : Option String := none
  email : Option String := none
  phone : Option String := none
  whatsapp : Option String := none
  address : Option String := none
  city : Option String := none
  state : Option String := none
  pincode : Option String := none
  industry_type : Option String := none
  business_type : Option String := none
  business_size : Option String := none
  registration_number : Option String := none
  gst_number : Option String := none
  annual_turnover : Option Nat := none
  employee_count : Option Nat := none
  establishment_year : Option String := none
  website : Option String := none
  contact_person : Option String := none
  designation : Option String := none
deriving DecidableEq, Repr

/-! ## Template service (template_service.py) -/

/-- Embedding of TemplateService._get_vendor_variables: the vendor data
exposed to templates, each value defaulted with `or` to an empty string
(or 0 for the numeric fields, which str() then prints). -/
def get_vendor_variables (vendor : Vendor) : List (String × String) :=
  [("vendor_name", vendor.name.getD ""),
   ("company_name", vendor.company_name.getD ""),
   ("email", vendor.email.getD ""),
   ("phone", vendor.phone.getD ""),
   ("whatsapp", vendor.whatsapp.getD ""),
   ("address", vendor.address.getD ""),
   ("city", vendor.city.getD ""),
   ("state", vendor.state.getD ""),
   ("pincode", vendor.pincode.getD ""),
   ("industry_type", vendor.industry_type.getD ""),
   ("business_type", vendor.business_type.getD ""),
   ("business_size", vendor.business_size.getD ""),
   ("registration_number", vendor.registration_number.getD ""),
   ("gst_number", vendor.gst_number.getD ""),
   ("annual_turnover", toString (vendor.annual_turnover.getD 0)),
   ("employee_count", toString (vendor.employee_count.getD 0)),
   ("establishment_year", vendor.establishment_year.getD ""),
   ("website", vendor.website.getD ""),
   ("contact_person", vendor.contact_person.getD ""),
   ("designation", vendor.designation.getD "")]

/-- Replacement step shared by both loops of _simple_template_render: for a
key k, first replaces every "{{k}}", then every "{k}", by the value. -/
def simpleReplaceStep (r : String) (kv : String × String) : String :=
  pyReplace (pyReplace r ("\x7b\x7b" ++ kv.1 ++ "\x7d\x7d") kv.2) ("\x7b" ++ kv.1 ++ "\x7d") kv.2

/-- Embedding of TemplateService._simple_template_render: sequential string
replacement, vendor variables first, caller-supplied variables second. -/
def simple_template_render (template_content : String) (vendor : Vendor)
    (varMap : List (String × String) := []) : String :=
  let rendered := (get_vendor_variables vendor).foldl simpleReplaceStep template_content
  varMap.foldl simpleReplaceStep rendered

/-- Lookup in a variable map: first binding wins. -/
def lookupVar (vars : List (String × String)) (name : String) : Option String :=
  match vars.find? (fun kv => kv.1 == name) with
  | some kv => some kv.2
  | none => none

/-- Model of Python dict update for lookup purposes: entries of extra
shadow entries of base, as in template_vars.update(variables). -/
def updateVars (base extra : List (String × String)) : List (String × String) :=
  extra ++ base

/-- Reads a Jinja2 variable token body: the maximal nonempty run of
characters other than the closing brace, which must be followed by the
two-character closer. Returns the body and the remainder after the closer. -/
def takeJinjaBody (l : List Char) : Option (List Char × List Char) :=
  let body := l.takeWhile (fun c => c ≠ '}')
  let rest := l.dropWhile (fun c => c ≠ '}')
  if body.isEmpty then none
  else
    match rest with
    | r1 :: r2 :: rest2 => if r1 = '}' && r2 = '}' then some (body, rest2) else none
    | _ => none

/-- Modelled from Jinja2 semantics for the template class the services use
(plain variable expressions, no block or comment tags): a double-brace
token is replaced by the looked-up value (missing variables render as the
empty string, Jinja2 default Undefined), any other character - including a
single brace - is copied verbatim, an unclosed double-brace token or a
block/comment opener makes rendering fail (TemplateSyntaxError or an
unmodelled construct), which render_template turns into the fallback.
Fuel is the character count plus one; each step consumes at least one
character, so fuel never runs out. -/
def jinjaRenderGo (vars : List (String × String)) : Nat → List Char → Option (List Char)
  | 0, _ => none
  | _ + 1, [] => some []
  | fuel + 1, c :: rest =>
    if c = '{' then
      match rest with
      | c2 :: rest2 =>
        if c2 = '{' then
          match takeJinjaBody rest2 with
          | some (body, rest3) =>
            match jinjaRenderGo vars fuel rest3 with
            | some out => some (((lookupVar vars (pyStrip (String.mk body))).getD "").data ++ out)
            | none => none
          | none => none
        else if c2 = '%' || c2 = '#' then none
        else
          match jinjaRenderGo vars fuel rest with
          | some out => some (c :: out)
          | none => none
      | [] => some [c]
    else
      match jinjaRenderGo vars fuel rest with
      | some out => some (c :: out)
      | none => none

/-- Embedding of TemplateService.render_template: builds the variable map
from the vendor, updated by the caller-supplied variables, renders through
Jinja2, and falls back to _simple_template_render when Jinja2 raises. -/
def render_template (template_content : String) (vendor : Vendor)
    (varMap : List (String × String) := []) : String :=
  let template_vars := updateVars (get_vendor_variables vendor) varMap
  match jinjaRenderGo template_vars (template_content.data.length + 1) template_content.data with
  | some rendered => String.mk rendered
  | none => simple_template_render template_content vendor varMap

/-- Reads a simple-style token body for the regex with a single brace pair:
one or more characters that are not braces, followed by the closing brace. -/
def takeSimpleBody (l : List Char) : Option (List Char × List Char) :=
  let body := l.takeWhile (fun c => c ≠ '{' && c ≠ '}')
  let rest := l.dropWhile (fun c => c ≠ '{' && c ≠ '}')
  if body.isEmpty then none
  else
    match rest with
    | r :: rest2 => if r = '}' then some (body, rest2) else none
    | [] => none

/-- Embedding of the findall scan for the Jinja2-style variable regex (an
opening double brace, a nonempty run of characters other than the closing
brace, the closing double brace): on a failed match the scan advances one
character, on a success it continues after the match. Fuel is the
character count. -/
def jinjaVarsGo : Nat → List Char → List String
  | 0, _ => []
  | _ + 1, [] => []
  | fuel + 1, c :: rest =>
    if c = '{' then
      match rest with
      | c2 :: rest2 =>
        if c2 = '{' then
          match takeJinjaBody rest2 with
          | some (body, rest3) => String.mk body :: jinjaVarsGo fuel rest3
          | none => jinjaVarsGo fuel rest
        else jinjaVarsGo fuel rest
      | [] => []
    else jinjaVarsGo fuel rest

/-- Embedding of the findall scan for the simple-style variable regex (an
opening brace, a nonempty run of non-brace characters, a closing brace). -/
def simpleVarsGo : Nat → List Char → List String
  | 0, _ => []
  | _ + 1, [] => []
  | fuel + 1, c :: rest =>
    if c = '{' then
      match takeSimpleBody rest with
      | some (body, rest2) => String.mk body :: simpleVarsGo fuel rest2
      | none => simpleVarsGo fuel rest
    else simpleVarsGo fuel rest

/-- Embedding of TemplateService.extract_variables: collects both token
styles, deduplicates, strips each name, filters out names holding a space,
a pipe or an opening parenthesis, and returns the sorted deduplicated
list. -/
def extract_variables (template_content : String) : List String :=
  let jinja_vars := jinjaVarsGo template_content.data.length template_content.data
  let simple_vars := simpleVarsGo template_content.data.length template_content.data
  let all_vars := pyDedup (jinja_vars ++ simple_vars)
  let var_list := (all_vars.map pyStrip).filter
    (fun v => !v.data.contains ' ' && !v.data.contains '|' && !v.data.contains '(')
  pySorted (pyDedup var_list)

/-! ## WhatsApp service (whatsapp_service.py) -/

/-- First step of WhatsAppService._clean_phone_number: keep every digit
and every plus sign (the join over the isdigit-or-plus comprehension). -/
def phoneFiltered (phone_number : String) : List Char :=
  phone_number.data.filter (fun c => c.isDigit || c = '+')

/-- Second step: remove the leading plus if present. -/
def phoneDeplussed (l : List Char) : List Char :=
  if l.head? = some '+' then l.tail else l

/-- Third step: prepend the default country code 91 when the number is 10
characters long and starts with a mobile-range digit (9, 8, 7 or 6). -/
def phonePrefixed (l : List Char) : List Char :=
  if l.length = 10 &&
      (l.head? = some '9' || l.head? = some '8' ||
       l.head? = some '7' || l.head? = some '6') then
    '9' :: '1' :: l
  else l

/-- Embedding of WhatsAppService._clean_phone_number: keeps digits and plus
signs, removes one leading plus, prepends the default country code when
the remainder is 10 characters starting with a mobile-range digit, and
returns the empty string when the final length is outside 10 to 15. An
absent (None) phone number is modelled as the empty string, which the
source likewise rejects. -/
def clean_phone_number (phone_number : String) : String :=
  if phone_number = "" then ""
  else
    let clean := phonePrefixed (phoneDeplussed (phoneFiltered phone_number))
    if clean.length < 10 || clean.length > 15 then "" else String.mk clean

/-- Outcome of one job as the dispatcher result loops observe it: the send
coroutine returned truthy, returned falsy, or raised (gather with
return_exceptions collects the exception; for the email client this can
only come from outside send_email itself, which catches its own
exceptions and returns a boolean). -/
inductive SendOutcome
  | ok : SendOutcome
  | fail : SendOutcome
  | exn : SendOutcome
deriving DecidableEq, Repr

/-- Result dictionary of WhatsAppService.send_bulk_messages, with counters
for the rate-limit sleeps it performs (observable pacing effects). The
error list is modelled by its length. -/
structure WaBulkResults where
  total : Nat
  sent : Nat
  failed : Nat
  errorCount : Nat
  interBatchSleeps : Nat
  intraMessageSleeps : Nat
deriving DecidableEq, Repr

/-- Per-message accounting of send_bulk_messages: a truthy send increments
sent, a falsy send or a raised exception increments failed and appends an
error entry. -/
def waStep (outcome : β → SendOutcome) (st : WaBulkResults) (m : β) : WaBulkResults :=
  match outcome m with
  | SendOutcome.ok => { st with sent := st.sent + 1 }
  | SendOutcome.fail => { st with failed := st.failed + 1, errorCount := st.errorCount + 1 }
  | SendOutcome.exn => { st with failed := st.failed + 1, errorCount := st.errorCount + 1 }

/-- Outer batch loop of send_bulk_messages: slices of batch_size (one
element plus batch_size - 1 more, matching the range slicing), a small
sleep after every message but the last of a batch, and the inter-batch
sleep when more messages remain. Fuel is the message count; every
iteration consumes at least one message. -/
def waBatchLoop (outcome : β → SendOutcome) (batch_size : Nat) :
    Nat → List β → WaBulkResults → WaBulkResults
  | 0, _, st => st
  | _ + 1, [], st => st
  | fuel + 1, m :: rest, st =>
    let batch := m :: rest.take (batch_size - 1)
    let remaining := rest.drop (batch_size - 1)
    let st1 := batch.foldl (waStep outcome) st
    let st2 := { st1 with intraMessageSleeps := st1.intraMessageSleeps + (batch.length - 1) }
    let st3 :=
      if remaining.isEmpty then st2
      else { st2 with interBatchSleeps := st2.interBatchSleeps + 1 }
    waBatchLoop outcome batch_size fuel remaining st3

/-- Embedding of WhatsAppService.send_bulk_messages with the per-message
transport abstracted as an outcome oracle. -/
def send_bulk_messages (outcome : β → SendOutcome) (message_list : List β)
    (batch_size : Nat := 5) : WaBulkResults :=
  waBatchLoop outcome batch_size message_list.length message_list
    { total := message_list.length, sent := 0, failed := 0, errorCount := 0,
      interBatchSleeps := 0, intraMessageSleeps := 0 }

/-! ## Email service (email_service.py) -/

/-- Result dictionary of EmailService.send_bulk_emails plus counters and a
size trace for the pacing side effects (batch logging and sleeps). The
error list is modelled by its length. -/
structure EmailBulkResults where
  total : Nat
  sent : Nat
  failed : Nat
  errorCount : Nat
  batches_processed : Nat
  batch_size : Nat
  interBatchSleeps : Nat
  intraBatchSleeps : Nat
  outerBatchSizes : List Nat
deriving DecidableEq, Repr

/-- Per-result accounting of the sub-batch result loop: an exception or a
falsy result increments failed and appends an error entry, a truthy
result increments sent. -/
def emailStep (outcome : α → SendOutcome) (st : EmailBulkResults) (j : α) : EmailBulkResults :=
  match outcome j with
  | SendOutcome.ok => { st with sent := st.sent + 1 }
  | SendOutcome.fail => { st with failed := st.failed + 1, errorCount := st.errorCount + 1 }
  | SendOutcome.exn => { st with failed := st.failed + 1, errorCount := st.errorCount + 1 }

/-- One entry of the email_list: a Python job dictionary with string keys
and string values, as the callers of send_bulk_emails build them. -/
abbrev EmailJobDict := List (String × String)

/-- Model of a Python dict subscript d[key]: the binding, or a raised
KeyError when the key is absent. -/
def pyDictGet (d : EmailJobDict) (key : String) : Except String String :=
  match d.find? (fun kv => kv.1 == key) with
  | some kv => Except.ok kv.2
  | none => Except.error ("KeyError: " ++ key)

/-- Model of Python dict.get(key, default): never raises. -/
def pyDictGetD (d : EmailJobDict) (key default : String) : String :=
  match d.find? (fun kv => kv.1 == key) with
  | some kv => kv.2
  | none => default

/-- Reads one replacement-field name of str.format: the run of characters
before the closing brace; a nested opening brace instead of the closer
means no well-formed field. -/
def takeFormatField (l : List Char) : Option (List Char × List Char) :=
  let body := l.takeWhile (fun c => c ≠ '{' && c ≠ '}')
  let rest := l.dropWhile (fun c => c ≠ '{' && c ≠ '}')
  match rest with
  | r :: rest2 => if r = '}' then some (body, rest2) else none
  | [] => none

/-- Model of Python str.format(**job) for the fragment the dispatcher
formats: a single-brace field is replaced by the named keyword's value, a
doubled brace is an escaped literal brace, and a field whose name is not
among the keywords raises KeyError while an unmatched or malformed brace
raises ValueError - in the dispatcher either escapes the per-job
handling. An empty field (positional with keyword-only arguments) also
raises, as in Python; format specifications are not modelled. Fuel is
the character count plus one; every step consumes at least one
character. -/
def pyFormatGo (kwargs : EmailJobDict) : Nat → List Char → Except String (List Char)
  | 0, _ => Except.error "fuel"
  | _ + 1, [] => Except.ok []
  | fuel + 1, c :: rest =>
    if c = '{' then
      match rest with
      | '{' :: rest2 =>
        match pyFormatGo kwargs fuel rest2 with
        | Except.ok out => Except.ok ('{' :: out)
        | Except.error e => Except.error e
      | _ =>
        match takeFormatField rest with
        | some (body, rest2) =>
          match pyDictGet kwargs (String.mk body) with
          | Except.ok v =>
            match pyFormatGo kwargs fuel rest2 with
            | Except.ok out => Except.ok (v.data ++ out)
            | Except.error e => Except.error e
          | Except.error e => Except.error e
        | none => Except.error "ValueError: unmatched brace"
    else if c = '}' then
      match rest with
      | '}' :: rest2 =>
        match pyFormatGo kwargs fuel rest2 with
        | Except.ok out => Except.ok ('}' :: out)
        | Except.error e => Except.error e
      | _ => Except.error "ValueError: unmatched brace"
    else
      match pyFormatGo kwargs fuel rest with
      | Except.ok out => Except.ok (c :: out)
      | Except.error e => Except.error e

/-- Model of Python str.format(**kwargs) on String. -/
def pyFormat (template : String) (kwargs : EmailJobDict) : Except String String :=
  match pyFormatGo kwargs (template.data.length + 1) template.data with
  | Except.ok out => Except.ok (String.mk out)
  | Except.error e => Except.error e

/-- The arguments handed to send_email for one job: recipient, formatted
subject, formatted body, vendor name (email_service.py lines 163 to
171). -/
abbrev EmailTask := String × String × String × String

/-- The synchronous part of creating one send task, evaluated in the
task-building loop outside any per-job handler: the subscript of the
email key and the two str.format calls can each raise, and such an
exception escapes to the function-level handler of send_bulk_emails. The
dict.get for the vendor name never raises. -/
def buildEmailTask (subject_template body_template : String)
    (email_data : EmailJobDict) : Except String EmailTask :=
  match pyDictGet email_data "email" with
  | Except.error e => Except.error e
  | Except.ok to_email =>
    match pyFormat subject_template email_data with
    | Except.error e => Except.error e
    | Except.ok subject =>
      match pyFormat body_template email_data with
      | Except.error e => Except.error e
      | Except.ok body =>
        Except.ok (to_email, subject, body, pyDictGetD email_data "name" "")

/-- The task-building loop over one concurrency group: tasks are created
job by job and the first construction exception propagates; the
already-created coroutines of the group are never awaited, so the group
contributes no counts. -/
def buildTasks (subject_template body_template : String) :
    List EmailJobDict → Except String (List EmailTask)
  | [] => Except.ok []
  | d :: ds =>
    match buildEmailTask subject_template body_template d with
    | Except.error e => Except.error e
    | Except.ok t =>
      match buildTasks subject_template body_template ds with
      | Except.ok ts => Except.ok (t :: ts)
      | Except.error e => Except.error e

/-- Inner sub-batch loop of send_bulk_emails: concurrency groups of the
hard-coded sub_batch_size 10. A group first builds all its tasks
synchronously - a construction exception propagates, the group
contributes no counts and the loops stop - then gathers and counts every
outcome, then sleeps briefly unless the group is the batch's last.
Returns the accumulated results paired with the escaped exception, if
any. Fuel is the batch length. -/
def emailSubLoop (outcome : EmailTask → SendOutcome)
    (subject_template body_template : String) :
    Nat → List EmailJobDict → EmailBulkResults → EmailBulkResults × Option String
  | 0, _, st => (st, none)
  | _ + 1, [], st => (st, none)
  | fuel + 1, d :: rest, st =>
    let sub := d :: rest.take 9
    let remaining := rest.drop 9
    match buildTasks subject_template body_template sub with
    | Except.error e => (st, some e)
    | Except.ok tasks =>
      let st1 := tasks.foldl (emailStep outcome) st
      let st2 :=
        if remaining.isEmpty then st1
        else { st1 with intraBatchSleeps := st1.intraBatchSleeps + 1 }
      emailSubLoop outcome subject_template body_template fuel remaining st2

/-- Outer batch loop of send_bulk_emails: slices of batch_size; a
completed batch increments batches_processed (its size is the logged
trace) and is followed by the inter-batch sleep only when more emails
remain; an exception escaping a batch stops the loop at the counts
accumulated so far, skipping the remaining batches and sleeps. Fuel is
the email count. -/
def emailBatchLoop (outcome : EmailTask → SendOutcome)
    (subject_template body_template : String) (batch_size : Nat) :
    Nat → List EmailJobDict → EmailBulkResults → EmailBulkResults × Option String
  | 0, _, st => (st, none)
  | _ + 1, [], st => (st, none)
  | fuel + 1, d :: rest, st =>
    let batch := d :: rest.take (batch_size - 1)
    let remaining := rest.drop (batch_size - 1)
    match emailSubLoop outcome subject_template body_template batch.length batch st with
    | (st1, some e) => (st1, some e)
    | (st1, none) =>
      let st2 := { st1 with batches_processed := st1.batches_processed + 1,
                            outerBatchSizes := st1.outerBatchSizes ++ [batch.length] }
      let st3 :=
        if remaining.isEmpty then st2
        else { st2 with interBatchSleeps := st2.interBatchSleeps + 1 }
      emailBatchLoop outcome subject_template body_template batch_size fuel remaining st3

/-- Embedding of EmailService.send_bulk_emails: the job-dictionary list,
the required subject_template and body_template parameters, and the
batching loops wrapped in the function-level try of lines 144 and 212 to
214 - an exception escaping the loops (a synchronous task-construction
failure) appends one bulk-sending-error entry and returns the counts
accumulated so far, so an aborted run returns sent + failed below the
submitted total. The awaited transport (send_email on the built task) is
abstracted as an outcome oracle, since send_email catches its own
exceptions and returns a boolean. -/
def send_bulk_emails (outcome : EmailTask → SendOutcome)
    (email_list : List EmailJobDict)
    (subject_template : String) (body_template : String)
    (batch_size : Nat := 100) : EmailBulkResults :=
  let init : EmailBulkResults :=
    { total := email_list.length, sent := 0, failed := 0, errorCount := 0,
      batches_processed := 0, batch_size := batch_size,
      interBatchSleeps := 0, intraBatchSleeps := 0, outerBatchSizes := [] }
  match emailBatchLoop outcome subject_template body_template batch_size
      email_list.length email_list init with
  | (st, none) => st
  | (st, some _) => { st with errorCount := st.errorCount + 1 }

/-- The integer-valued keys of the dictionary send_bulk_emails returns
(lines 135 to 142 of email_service.py; the list-valued errors key is
omitted). There is no key named successful. -/
def bulkResultsNatEntries (r : EmailBulkResults) : List (String × Nat) :=
  [("total", r.total), ("sent", r.sent), ("failed", r.failed),
   ("batches_processed", r.batches_processed), ("batch_size", r.batch_size)]

/-- Model of Python dict.get(key, default) over the integer-valued entries. -/
def dictGetNat (d : List (String × Nat)) (key : String) (default : Nat) : Nat :=
  match d.find? (fun kv => kv.1 == key) with
  | some kv => kv.2
  | none => default

/-! ## Campaign service (campaign_service.py) -/

/-- Campaign status enum of models/campaign.py. -/
inductive CampaignStatus
  | DRAFT : CampaignStatus
  | ACTIVE : CampaignStatus
  | COMPLETED : CampaignStatus
  | CANCELLED : CampaignStatus
deriving DecidableEq, Repr

/-- Response status enum of models/campaign.py (values Pending, Completed,
Partial, Failed; the third is spelled PARTIAL_ because of a keyword
clash). -/
inductive ResponseStatus
  | PENDING : ResponseStatus
  | COMPLETED : ResponseStatus
  | PARTIAL_ : ResponseStatus
  | FAILED : ResponseStatus
deriving DecidableEq, Repr

/-- The campaign columns execute_campaign reads. -/
structure Campaign where
  id : String
  email_template_id : Option String := none
  whatsapp_template_id : Option String := none
  target_vendors : Option (List String) := none
deriving DecidableEq, Repr

/-- Email template columns read by the orchestrator. -/
structure EmailTemplate where
  subject : String
  body : String
deriving DecidableEq, Repr

/-- WhatsApp template columns read by the orchestrator. -/
structure WhatsAppTemplate where
  content : String
deriving DecidableEq, Repr

/-- The external collaborators of one execute_campaign run: the database
lookups (campaign row, vendor table, the template rows the configured ids
resolve to), whether the bulk creation of response records commits
(all-or-nothing: uncommitted adds are discarded when the run returns
early), the UUID well-formedness test, and the per-vendor result of the
WhatsApp client (send_message catches its own exceptions and returns a
boolean). -/
structure ExecEnv where
  campaign? : Option Campaign
  vendorTable : List Vendor
  emailTemplate? : Option EmailTemplate
  whatsappTemplate? : Option WhatsAppTemplate
  createResponsesOk : Bool
  isUuid : String → Bool
  whatsappSendOk : Vendor → Bool

/-- The options of execute_campaign. -/
structure ExecOptions where
  send_emails : Bool := true
  send_whatsapp : Bool := true
  test_mode : Bool := false
  batch_size : Nat := 50
deriving DecidableEq, Repr

/-- The database rows the orchestrator mutates: the campaign status column
and the MSMEResponse rows of this campaign (vendor id and status). -/
structure DbState where
  status : CampaignStatus
  responses : List (String × ResponseStatus)
deriving DecidableEq, Repr

/-- What one execute_campaign run produces: the final database state, the
counters it logs, and the vendors the WhatsApp loop actually called the
client for (the observable send attempts). -/
structure ExecResult where
  state : DbState
  successful_emails : Nat
  successful_whatsapp : Nat
  failed_sends : Nat
  whatsappAttempted : List String
deriving DecidableEq, Repr

/-- One filter criterion of _get_target_vendors: industry and state
criteria are case-insensitive containment matches (ilike with percent
wildcards), size is an exact equality; a NULL column never matches; an
unrecognized criterion adds no filter. -/
def vendor_matches_criterion (crit : String) (v : Vendor) : Bool :=
  if pyStartsWith crit "industry:" then
    match v.industry_type with
    | some ind => pyILike (pyReplace crit "industry:" "") ind
    | none => false
  else if pyStartsWith crit "state:" then
    match v.state with
    | some s => pyILike (pyReplace crit "state:" "") s
    | none => false
  else if pyStartsWith crit "size:" then
    v.business_size == some (pyReplace crit "size:" "")
  else true

/-- Embedding of CampaignService._get_target_vendors: a nonempty
target_vendors list is either all vendor ids (explicit recipient set) or a
conjunction of filter criteria; the final filter keeps only vendors whose
email is not NULL, for every channel. -/
def get_target_vendors (env : ExecEnv) (campaign : Campaign) : List Vendor :=
  let filtered :=
    match campaign.target_vendors with
    | some (t :: ts) =>
      if (t :: ts).all env.isUuid then
        env.vendorTable.filter (fun v => (t :: ts).contains (Vendor.id v))
      else
        env.vendorTable.filter (fun v => (t :: ts).all (fun crit => vendor_matches_criterion crit v))
    | _ => env.vendorTable
  filtered.filter (fun v => v.email.isSome)

/-- Modelled from Python call semantics for line 189 of
campaign_service.py: the statement send_bulk_emails(email_data) omits the
required positional parameters subject_template and body_template of
EmailService.send_bulk_emails, so the call raises TypeError before the
dispatcher body (send_bulk_emails above) can run. -/
def orchestratorBulkEmailCall (_email_data : List (String × String × String × String)) :
    Except String (List (String × Nat)) :=
  Except.error "TypeError: missing required positional arguments"

/-- Embedding of CampaignService._execute_campaign_emails: a missing
template or any raised exception yields 0 successful and one failure per
vendor; test mode counts every vendor as successful; otherwise the
per-vendor jobs are built (to_email, rendered subject, rendered body,
vendor name) and handed to the bulk call, whose dictionary is read through
the keys successful and failed. -/
def execute_campaign_emails (env : ExecEnv) (vendors : List Vendor) (test_mode : Bool) :
    Nat × Nat :=
  match env.emailTemplate? with
  | none => (0, vendors.length)
  | some tmpl =>
    if test_mode then (vendors.length, 0)
    else
      let email_data := vendors.map (fun v =>
        (v.email.getD "", render_template tmpl.subject v [],
         render_template tmpl.body v [], v.name.getD ""))
      if email_data.isEmpty then (0, vendors.length)
      else
        match orchestratorBulkEmailCall email_data with
        | Except.error _ => (0, vendors.length)
        | Except.ok results =>
          (dictGetNat results "successful" 0, dictGetNat results "failed" 0)

/-- Embedding of CampaignService._send_campaign_whatsapp: False when the
template row is absent, True in test mode, otherwise the client result
(rendering is total and the client catches its own exceptions). -/
def send_campaign_whatsapp (env : ExecEnv) (v : Vendor) (test_mode : Bool) : Bool :=
  match env.whatsappTemplate? with
  | none => false
  | some _ => if test_mode then true else env.whatsappSendOk v

/-- Accumulator of the per-vendor WhatsApp loop of execute_campaign. -/
structure WaRunAcc where
  sent : Nat
  failed : Nat
  attempted : List String
deriving DecidableEq, Repr

/-- The WhatsApp branch of execute_campaign (lines 84 to 100): vendors in
slices of batch_size, one client call per vendor, a success incrementing
successful_whatsapp and anything else incrementing failed_sends; every
called vendor is recorded as attempted. -/
def campaign_whatsapp_loop (env : ExecEnv) (test_mode : Bool) (batch_size : Nat)
    (vendors : List Vendor) : WaRunAcc :=
  (chunksGo batch_size vendors.length vendors).foldl
    (fun acc batch => batch.foldl
      (fun acc v =>
        if send_campaign_whatsapp env v test_mode then
          { acc with sent := acc.sent + 1, attempted := acc.attempted ++ [v.id] }
        else
          { acc with failed := acc.failed + 1, attempted := acc.attempted ++ [v.id] }) acc)
    { sent := 0, failed := 0, attempted := [] }

/-- Embedding of CampaignService.execute_campaign: load the campaign
(absent: return, nothing touched); resolve targets (empty: return,
nothing touched); create one Pending response row per vendor
(all-or-nothing; failure: return, nothing touched); run the enabled
channels; set the final status to Completed when the summed successes are
positive and to Cancelled otherwise, and commit. -/
def execute_campaign (env : ExecEnv) (opts : ExecOptions) (st : DbState) : ExecResult :=
  match env.campaign? with
  | none =>
    { state := st, successful_emails := 0, successful_whatsapp := 0,
      failed_sends := 0, whatsappAttempted := [] }
  | some campaign =>
    let vendors := get_target_vendors env campaign
    if vendors.isEmpty then
      { state := st, successful_emails := 0, successful_whatsapp := 0,
        failed_sends := 0, whatsappAttempted := [] }
    else if !env.createResponsesOk then
      { state := st, successful_emails := 0, successful_whatsapp := 0,
        failed_sends := 0, whatsappAttempted := [] }
    else
      let st1 : DbState :=
        { st with responses :=
            st.responses ++ vendors.map (fun v => (v.id, ResponseStatus.PENDING)) }
      let emailRes : Nat × Nat :=
        if opts.send_emails && campaign.email_template_id.isSome then
          execute_campaign_emails env vendors opts.test_mode
        else (0, 0)
      let waRes : WaRunAcc :=
        if opts.send_whatsapp && campaign.whatsapp_template_id.isSome then
          campaign_whatsapp_loop env opts.test_mode opts.batch_size vendors
        else { sent := 0, failed := 0, attempted := [] }
      let total_processed := emailRes.1 + waRes.sent
      let finalStatus :=
        if total_processed > 0 then CampaignStatus.COMPLETED else CampaignStatus.CANCELLED
      { state := { st1 with status := finalStatus },
        successful_emails := emailRes.1, successful_whatsapp := waRes.sent,
        failed_sends := emailRes.2 + waRes.failed, whatsappAttempted := waRes.attempted }

/-! ## Counting lemmas for the dispatchers -/

theorem emailStep_count (o : α → SendOutcome) (st : EmailBulkResults) (j : α) :
    (emailStep o st j).sent + (emailStep o st j).failed = st.sent + st.failed + 1 := by
  cases h : o j <;> simp [emailStep, h] <;> omega

theorem foldl_emailStep_count (o : α → SendOutcome) :
    ∀ (l : List α) (st : EmailBulkResults),
      (l.foldl (emailStep o) st).sent + (l.foldl (emailStep o) st).failed
        = st.sent + st.failed + l.length := by
  intro l
  induction l with
  | nil => intro st; simp
  | cons j t ih =>
    intro st
    have h1 := emailStep_count o st j
    simp only [List.foldl_cons, List.length_cons]
    rw [ih (emailStep o st j)]
    omega

theorem waStep_count (o : β → SendOutcome) (st : WaBulkResults) (m : β) :
    (waStep o st m).sent + (waStep o st m).failed = st.sent + st.failed + 1 := by
  cases h : o m <;> simp [waStep, h] <;> omega

theorem foldl_waStep_count (o : β → SendOutcome) :
    ∀ (l : List β) (st : WaBulkResults),
      (l.foldl (waStep o) st).sent + (l.foldl (waStep o) st).failed
        = st.sent + st.failed + l.length := by
  intro l
  induction l with
  | nil => intro st; simp
  | cons m t ih =>
    intro st
    have h1 := waStep_count o st m
    simp only [List.foldl_cons, List.length_cons]
    rw [ih (waStep o st m)]
    omega

theorem waBatchLoop_count (o : β → SendOutcome) (bs : Nat) :
    ∀ (fuel : Nat) (l : List β) (st : WaBulkResults), l.length ≤ fuel →
      (waBatchLoop o bs fuel l st).sent + (waBatchLoop o bs fuel l st).failed
        = st.sent + st.failed + l.length := by
  intro fuel
  induction fuel with
  | zero =>
    intro l st h
    have : l = [] := List.eq_nil_of_length_eq_zero (Nat.le_zero.mp h)
    subst this
    simp [waBatchLoop]
  | succ n ih =>
    intro l st h
    cases l with
    | nil => simp [waBatchLoop]
    | cons m rest =>
      have hlen : rest.length ≤ n := by
        simp only [List.length_cons] at h; omega
      have hdrop : (rest.drop (bs - 1)).length = rest.length - (bs - 1) :=
        List.length_drop (bs - 1) rest
      have htake : (rest.take (bs - 1)).length = min (bs - 1) rest.length :=
        List.length_take (bs - 1) rest
      have hfold := foldl_waStep_count o (m :: rest.take (bs - 1)) st
      have hrec : ∀ st2 : WaBulkResults,
          (waBatchLoop o bs n (rest.drop (bs - 1)) st2).sent
            + (waBatchLoop o bs n (rest.drop (bs - 1)) st2).failed
            = st2.sent + st2.failed + (rest.drop (bs - 1)).length :=
        fun st2 => ih (rest.drop (bs - 1)) st2 (by omega)
      simp only [waBatchLoop]
      rw [hrec]
      simp only [apply_ite WaBulkResults.sent, apply_ite WaBulkResults.failed, ite_self]
      simp only [List.length_cons, htake] at hfold ⊢
      simp only [hdrop]
      omega

theorem send_bulk_messages_count (o : β → SendOutcome) (l : List β) (bs : Nat) :
    (send_bulk_messages o l bs).sent + (send_bulk_messages o l bs).failed = l.length := by
  unfold send_bulk_messages
  rw [waBatchLoop_count o bs l.length l _ (Nat.le_refl _)]
  simp

/-! ## Pacing trace of the email dispatcher -/

/-- The batch-size trace of slicing a list depends on its length alone;
this function computes it from the length. -/
def outerSizesOfLen (bs n : Nat) : List Nat :=
  (chunksGo bs n (List.replicate n ())).map List.length

theorem chunksGo_fuel (bs : Nat) :
    ∀ (f1 f2 : Nat) (l : List α), l.length ≤ f1 → l.length ≤ f2 →
      chunksGo bs f1 l = chunksGo bs f2 l := by
  intro f1
  induction f1 with
  | zero =>
    intro f2 l h1 h2
    have : l = [] := List.eq_nil_of_length_eq_zero (Nat.le_zero.mp h1)
    subst this
    cases f2 <;> rfl
  | succ n ih =>
    intro f2 l h1 h2
    cases l with
    | nil => cases f2 <;> rfl
    | cons a t =>
      cases f2 with
      | zero => simp at h2
      | succ m =>
        simp only [chunksGo]
        have ht : t.length ≤ n := by simp only [List.length_cons] at h1; omega
        have hm : t.length ≤ m := by simp only [List.length_cons] at h2; omega
        have hd : (t.drop (bs - 1)).length = t.length - (bs - 1) := List.length_drop _ _
        rw [ih m (t.drop (bs - 1)) (by omega) (by omega)]

theorem outerSizesOfLen_succ (bs n : Nat) :
    outerSizesOfLen bs (n + 1)
      = (min (bs - 1) n + 1) :: outerSizesOfLen bs (n - (bs - 1)) := by
  unfold outerSizesOfLen
  rw [List.replicate_succ]
  simp only [chunksGo]
  rw [List.take_replicate, List.drop_replicate]
  rw [chunksGo_fuel bs n (n - (bs - 1)) (List.replicate (n - (bs - 1)) ())
    (by simp) (by simp)]
  simp [List.length_replicate]

theorem foldl_emailStep_trace (o : α → SendOutcome) :
    ∀ (l : List α) (st : EmailBulkResults),
      (l.foldl (emailStep o) st).outerBatchSizes = st.outerBatchSizes ∧
      (l.foldl (emailStep o) st).interBatchSleeps = st.interBatchSleeps ∧
      (l.foldl (emailStep o) st).batches_processed = st.batches_processed := by
  intro l
  induction l with
  | nil => intro st; exact ⟨rfl, rfl, rfl⟩
  | cons j t ih =>
    intro st
    have h1 : (emailStep o st j).outerBatchSizes = st.outerBatchSizes ∧
        (emailStep o st j).interBatchSleeps = st.interBatchSleeps ∧
        (emailStep o st j).batches_processed = st.batches_processed := by
      cases h : o j <;> simp [emailStep, h]
    simp only [List.foldl_cons]
    rw [(ih (emailStep o st j)).1, (ih (emailStep o st j)).2.1,
      (ih (emailStep o st j)).2.2, h1.1, h1.2.1, h1.2.2]
    exact ⟨rfl, rfl, rfl⟩

theorem buildTasks_ok (stt bt : String) :
    ∀ (l : List EmailJobDict),
      (∀ d ∈ l, ∃ t, buildEmailTask stt bt d = Except.ok t) →
      ∃ ts : List EmailTask,
        buildTasks stt bt l = Except.ok ts ∧ ts.length = l.length := by
  intro l
  induction l with
  | nil => intro _; exact ⟨[], rfl, rfl⟩
  | cons d ds ih =>
    intro h
    obtain ⟨t, ht⟩ := h d (List.mem_cons_self d ds)
    obtain ⟨ts, hts, hlen⟩ := ih (fun d2 hd2 => h d2 (List.mem_cons_of_mem d hd2))
    exact ⟨t :: ts, by simp [buildTasks, ht, hts], by simp [hlen]⟩

theorem emailSubLoop_ok (outcome : EmailTask → SendOutcome) (stt bt : String) :
    ∀ (fuel : Nat) (l : List EmailJobDict) (st : EmailBulkResults), l.length ≤ fuel →
      (∀ d ∈ l, ∃ t, buildEmailTask stt bt d = Except.ok t) →
      (emailSubLoop outcome stt bt fuel l st).2 = none
      ∧ (emailSubLoop outcome stt bt fuel l st).1.sent
          + (emailSubLoop outcome stt bt fuel l st).1.failed
          = st.sent + st.failed + l.length
      ∧ (emailSubLoop outcome stt bt fuel l st).1.outerBatchSizes = st.outerBatchSizes
      ∧ (emailSubLoop outcome stt bt fuel l st).1.interBatchSleeps = st.interBatchSleeps
      ∧ (emailSubLoop outcome stt bt fuel l st).1.batches_processed = st.batches_processed := by
  intro fuel
  induction fuel with
  | zero =>
    intro l st h hb
    have : l = [] := List.eq_nil_of_length_eq_zero (Nat.le_zero.mp h)
    subst this
    simp [emailSubLoop]
  | succ n ih =>
    intro l st h hb
    cases l with
    | nil => simp [emailSubLoop]
    | cons d rest =>
      have hlen : rest.length ≤ n := by
        simp only [List.length_cons] at h; omega
      have hdrop : (rest.drop 9).length = rest.length - 9 := List.length_drop 9 rest
      have htake : (rest.take 9).length = min 9 rest.length := List.length_take 9 rest
      have hsubmem : ∀ d2 ∈ d :: rest.take 9, ∃ t, buildEmailTask stt bt d2 = Except.ok t := by
        intro d2 hd2
        rcases List.mem_cons.mp hd2 with h1 | h2
        · rw [h1]; exact hb d (List.mem_cons_self _ _)
        · exact hb d2 (List.mem_cons_of_mem _ (List.take_subset _ _ h2))
      have hdropmem : ∀ d2 ∈ rest.drop 9, ∃ t, buildEmailTask stt bt d2 = Except.ok t :=
        fun d2 hd2 => hb d2 (List.mem_cons_of_mem _ (List.drop_subset _ _ hd2))
      obtain ⟨ts, hts, hlents⟩ := buildTasks_ok stt bt (d :: rest.take 9) hsubmem
      have hrec := fun st0 => ih (rest.drop 9) st0 (by omega) hdropmem
      have hnone : ∀ st0 : EmailBulkResults,
          (emailSubLoop outcome stt bt n (rest.drop 9) st0).2 = none :=
        fun st0 => (hrec st0).1
      have hcnt : ∀ st0 : EmailBulkResults,
          (emailSubLoop outcome stt bt n (rest.drop 9) st0).1.sent
            + (emailSubLoop outcome stt bt n (rest.drop 9) st0).1.failed
            = st0.sent + st0.failed + (rest.drop 9).length :=
        fun st0 => (hrec st0).2.1
      have houter : ∀ st0 : EmailBulkResults,
          (emailSubLoop outcome stt bt n (rest.drop 9) st0).1.outerBatchSizes
            = st0.outerBatchSizes :=
        fun st0 => (hrec st0).2.2.1
      have hinter : ∀ st0 : EmailBulkResults,
          (emailSubLoop outcome stt bt n (rest.drop 9) st0).1.interBatchSleeps
            = st0.interBatchSleeps :=
        fun st0 => (hrec st0).2.2.2.1
      have hbp : ∀ st0 : EmailBulkResults,
          (emailSubLoop outcome stt bt n (rest.drop 9) st0).1.batches_processed
            = st0.batches_processed :=
        fun st0 => (hrec st0).2.2.2.2
      have hfold := foldl_emailStep_count outcome ts st
      have hftr := foldl_emailStep_trace outcome ts st
      simp only [emailSubLoop, hts]
      refine ⟨?_, ?_, ?_, ?_, ?_⟩
      · rw [hnone]
      · rw [hcnt]
        simp only [apply_ite EmailBulkResults.sent, apply_ite EmailBulkResults.failed, ite_self]
        simp only [List.length_cons, htake] at hfold hlents ⊢
        simp only [hdrop]
        omega
      · rw [houter]
        simp only [apply_ite EmailBulkResults.outerBatchSizes, ite_self]
        exact hftr.1
      · rw [hinter]
        simp only [apply_ite EmailBulkResults.interBatchSleeps, ite_self]
        exact hftr.2.1
      · rw [hbp]
        simp only [apply_ite EmailBulkResults.batches_processed, ite_self]
        exact hftr.2.2

theorem emailBatchLoop_ok (outcome : EmailTask → SendOutcome) (stt bt : String) (bs : Nat) :
    ∀ (fuel : Nat) (l : List EmailJobDict) (st : EmailBulkResults), l.length ≤ fuel →
      (∀ d ∈ l, ∃ t, buildEmailTask stt bt d = Except.ok t) →
      (emailBatchLoop outcome stt bt bs fuel l st).2 = none
      ∧ (emailBatchLoop outcome stt bt bs fuel l st).1.sent
          + (emailBatchLoop outcome stt bt bs fuel l st).1.failed
          = st.sent + st.failed + l.length
      ∧ (emailBatchLoop outcome stt bt bs fuel l st).1.outerBatchSizes
          = st.outerBatchSizes ++ outerSizesOfLen bs l.length
      ∧ (emailBatchLoop outcome stt bt bs fuel l st).1.interBatchSleeps
          = st.interBatchSleeps + ((outerSizesOfLen bs l.length).length - 1) := by
  intro fuel
  induction fuel with
  | zero =>
    intro l st h hb
    have : l = [] := List.eq_nil_of_length_eq_zero (Nat.le_zero.mp h)
    subst this
    simp [emailBatchLoop, outerSizesOfLen, chunksGo]
  | succ n ih =>
    intro l st h hb
    cases l with
    | nil => simp [emailBatchLoop, outerSizesOfLen, chunksGo]
    | cons d rest =>
      have hlen : rest.length ≤ n := by
        simp only [List.length_cons] at h; omega
      have hdrop : (rest.drop (bs - 1)).length = rest.length - (bs - 1) :=
        List.length_drop (bs - 1) rest
      have htake : (rest.take (bs - 1)).length = min (bs - 1) rest.length :=
        List.length_take (bs - 1) rest
      have hbatchmem : ∀ d2 ∈ d :: rest.take (bs - 1),
          ∃ t, buildEmailTask stt bt d2 = Except.ok t := by
        intro d2 hd2
        rcases List.mem_cons.mp hd2 with h1 | h2
        · rw [h1]; exact hb d (List.mem_cons_self _ _)
        · exact hb d2 (List.mem_cons_of_mem _ (List.take_subset _ _ h2))
      have hdropmem : ∀ d2 ∈ rest.drop (bs - 1),
          ∃ t, buildEmailTask stt bt d2 = Except.ok t :=
        fun d2 hd2 => hb d2 (List.mem_cons_of_mem _ (List.drop_subset _ _ hd2))
      have hsub := emailSubLoop_ok outcome stt bt (d :: rest.take (bs - 1)).length
        (d :: rest.take (bs - 1)) st (Nat.le_refl _) hbatchmem
      cases hE : emailSubLoop outcome stt bt (d :: rest.take (bs - 1)).length
          (d :: rest.take (bs - 1)) st with
      | mk st1 r2 =>
        rw [hE] at hsub
        have h2n : r2 = none := hsub.1
        subst h2n
        have hc1 : st1.sent + st1.failed
            = st.sent + st.failed + (d :: rest.take (bs - 1)).length := hsub.2.1
        have ho1 : st1.outerBatchSizes = st.outerBatchSizes := hsub.2.2.1
        have hi1 : st1.interBatchSleeps = st.interBatchSleeps := hsub.2.2.2.1
        have hrec := fun st0 => ih (rest.drop (bs - 1)) st0 (by omega) hdropmem
        have hnone2 : ∀ st0 : EmailBulkResults,
            (emailBatchLoop outcome stt bt bs n (rest.drop (bs - 1)) st0).2 = none :=
          fun st0 => (hrec st0).1
        have hcnt2 : ∀ st0 : EmailBulkResults,
            (emailBatchLoop outcome stt bt bs n (rest.drop (bs - 1)) st0).1.sent
              + (emailBatchLoop outcome stt bt bs n (rest.drop (bs - 1)) st0).1.failed
              = st0.sent + st0.failed + (rest.drop (bs - 1)).length :=
          fun st0 => (hrec st0).2.1
        have houter2 : ∀ st0 : EmailBulkResults,
            (emailBatchLoop outcome stt bt bs n (rest.drop (bs - 1)) st0).1.outerBatchSizes
              = st0.outerBatchSizes ++ outerSizesOfLen bs (rest.drop (bs - 1)).length :=
          fun st0 => (hrec st0).2.2.1
        have hinter2 : ∀ st0 : EmailBulkResults,
            (emailBatchLoop outcome stt bt bs n (rest.drop (bs - 1)) st0).1.interBatchSleeps
              = st0.interBatchSleeps
                + ((outerSizesOfLen bs (rest.drop (bs - 1)).length).length - 1) :=
          fun st0 => (hrec st0).2.2.2
        simp only [emailBatchLoop, hE]
        refine ⟨?_, ?_, ?_, ?_⟩
        · rw [hnone2]
        · rw [hcnt2]
          simp only [apply_ite EmailBulkResults.sent, apply_ite EmailBulkResults.failed, ite_self]
          simp only [List.length_cons, htake] at hc1 ⊢
          simp only [hdrop]
          omega
        · rw [houter2]
          simp only [apply_ite EmailBulkResults.outerBatchSizes, ite_self]
          rw [ho1]
          simp only [List.length_cons]
          rw [outerSizesOfLen_succ]
          simp only [htake, hdrop, List.append_assoc, List.singleton_append]
        · rw [hinter2]
          simp only [apply_ite EmailBulkResults.interBatchSleeps]
          by_cases hr : (rest.drop (bs - 1)).isEmpty = true
          · have hnil : rest.drop (bs - 1) = [] := by
              cases hd2 : rest.drop (bs - 1) with
              | nil => rfl
              | cons a b => rw [hd2] at hr; simp at hr
            have hz : rest.length - (bs - 1) = 0 := by rw [← hdrop, hnil]; rfl
            simp only [hr, if_true, hi1]
            simp only [List.length_cons]
            rw [outerSizesOfLen_succ, hnil]
            simp only [List.length_nil, hz]
            simp [outerSizesOfLen, chunksGo]
          · have hne : rest.drop (bs - 1) ≠ [] := by
              intro he; rw [he] at hr; simp at hr
            have hlen0 : rest.length - (bs - 1) ≠ 0 := by
              intro h0
              exact hne (List.eq_nil_of_length_eq_zero (by rw [hdrop]; exact h0))
            simp only [hr, Bool.false_eq_true, if_false, hi1]
            simp only [List.length_cons]
            rw [outerSizesOfLen_succ, hdrop]
            cases hm : rest.length - (bs - 1) with
            | zero => exact absurd hm hlen0
            | succ m =>
              rw [outerSizesOfLen_succ]
              simp only [List.length_cons]
              omega

/-- Counts and pacing of send_bulk_emails on a run in which every job
builds: sent plus failed is the submitted total, the outer batch sizes
are determined by the length, and the inter-batch sleeps are one fewer
than the number of batches. -/
theorem send_bulk_emails_ok (outcome : EmailTask → SendOutcome)
    (email_list : List EmailJobDict) (stt bt : String) (bs : Nat)
    (h : ∀ d ∈ email_list, ∃ t, buildEmailTask stt bt d = Except.ok t) :
    (send_bulk_emails outcome email_list stt bt bs).sent
        + (send_bulk_emails outcome email_list stt bt bs).failed = email_list.length
    ∧ (send_bulk_emails outcome email_list stt bt bs).outerBatchSizes
        = outerSizesOfLen bs email_list.length
    ∧ (send_bulk_emails outcome email_list stt bt bs).interBatchSleeps
        = (outerSizesOfLen bs email_list.length).length - 1 := by
  have hb := emailBatchLoop_ok outcome stt bt bs email_list.length email_list
    { total := email_list.length, sent := 0, failed := 0, errorCount := 0,
      batches_processed := 0, batch_size := bs,
      interBatchSleeps := 0, intraBatchSleeps := 0, outerBatchSizes := [] }
    (Nat.le_refl _) h
  simp only [send_bulk_emails]
  cases hE : emailBatchLoop outcome stt bt bs email_list.length email_list
      { total := email_list.length, sent := 0, failed := 0, errorCount := 0,
        batches_processed := 0, batch_size := bs,
        interBatchSleeps := 0, intraBatchSleeps := 0, outerBatchSizes := [] } with
  | mk stf r2 =>
    rw [hE] at hb
    have h2n : r2 = none := hb.1
    subst h2n
    simp only [hE]
    refine ⟨?_, ?_, ?_⟩
    · have h1 : stf.sent + stf.failed = 0 + 0 + email_list.length := hb.2.1
      omega
    · have h2 : stf.outerBatchSizes = [] ++ outerSizesOfLen bs email_list.length := hb.2.2.1
      rw [List.nil_append] at h2
      exact h2
    · have h3 : stf.interBatchSleeps
          = 0 + ((outerSizesOfLen bs email_list.length).length - 1) := hb.2.2.2
      rw [Nat.zero_add] at h3
      exact h3

/-- C2 counterexample: the email dispatcher can drop jobs: submitting one
job dictionary without an email key makes the synchronous task
construction raise KeyError outside the per-job handling, the
function-level handler returns the partial counts, and sent + failed = 0
falls short of the 1 job submitted. -/
theorem c2_bulk_counts_counterexample :
    (send_bulk_emails (fun _ => SendOutcome.ok) [([] : EmailJobDict)] "s" "b" 100).sent
        + (send_bulk_emails (fun _ => SendOutcome.ok) [([] : EmailJobDict)] "s" "b" 100).failed
        ≠ [([] : EmailJobDict)].length
    ∧ (send_bulk_emails (fun _ => SendOutcome.ok) [([] : EmailJobDict)] "s" "b" 100).sent = 0
    ∧ (send_bulk_emails (fun _ => SendOutcome.ok) [([] : EmailJobDict)] "s" "b" 100).failed = 0
    ∧ (send_bulk_emails (fun _ => SendOutcome.ok) [([] : EmailJobDict)] "s" "b" 100).total = 1 := by
  decide

/-- C2 amended: every job that reaches per-job processing is counted
exactly once as sent or failed. For the WhatsApp dispatcher this gives
sent + failed = total jobs submitted for every job list, since its
per-message dictionary lookups and client call sit inside the per-message
handler; for the email dispatcher the same holds provided every submitted
job builds - its email key is present and both templates format against
its keys - while a construction exception aborts the run with partial
counts. -/
theorem c2_bulk_counts_amended (outcomeE : EmailTask → SendOutcome)
    (email_list : List EmailJobDict) (subject_template body_template : String) (bsE : Nat)
    (outcomeW : β → SendOutcome) (message_list : List β) (bsW : Nat)
    (h : ∀ d ∈ email_list, ∃ t, buildEmailTask subject_template body_template d = Except.ok t) :
    (send_bulk_emails outcomeE email_list subject_template body_template bsE).sent
        + (send_bulk_emails outcomeE email_list subject_template body_template bsE).failed
        = email_list.length
    ∧ (send_bulk_messages outcomeW message_list bsW).sent
        + (send_bulk_messages outcomeW message_list bsW).failed = message_list.length :=
  ⟨(send_bulk_emails_ok outcomeE email_list subject_template body_template bsE h).1,
   send_bulk_messages_count outcomeW message_list bsW⟩

/-- Job dictionary that builds successfully against constant templates. -/
def okEmailJob : EmailJobDict := [("email", "a@b.c")]

/-- C2 witness: the amended conservation theorem at a one-job email list
that builds and a one-message WhatsApp list. -/
theorem c2_bulk_counts_amended_witness :
    (send_bulk_emails (fun _ => SendOutcome.ok) [okEmailJob] "s" "b" 100).sent
        + (send_bulk_emails (fun _ => SendOutcome.ok) [okEmailJob] "s" "b" 100).failed
        = [okEmailJob].length
    ∧ (send_bulk_messages (fun _ => SendOutcome.ok) ([()] : List Unit) 5).sent
        + (send_bulk_messages (fun _ => SendOutcome.ok) ([()] : List Unit) 5).failed
        = ([()] : List Unit).length :=
  c2_bulk_counts_amended (fun _ => SendOutcome.ok) [okEmailJob] "s" "b" 100
    (fun _ => SendOutcome.ok) ([()] : List Unit) 5
    (by
      intro d hd
      have hd2 : d = okEmailJob := by simpa using hd
      subst hd2
      exact ⟨("a@b.c", "s", "b", ""), rfl⟩)

/-- A 250-job list whose first job dictionary lacks the email key. -/
def c9BadJobs : List EmailJobDict := ([] : EmailJobDict) :: List.replicate 249 okEmailJob

set_option maxRecDepth 8000 in
/-- C9 counterexample: on this 250-job list the first concurrency group's
task construction raises, so the run aborts before any outer batch
completes: no batch is processed and the inter-batch delay is slept zero
times, not two. -/
theorem c9_batch_pacing_counterexample :
    c9BadJobs.length = 250
    ∧ (send_bulk_emails (fun _ => SendOutcome.ok) c9BadJobs "s" "b" 100).outerBatchSizes = []
    ∧ (send_bulk_emails (fun _ => SendOutcome.ok) c9BadJobs "s" "b" 100).interBatchSleeps = 0
    ∧ (send_bulk_emails (fun _ => SendOutcome.ok) c9BadJobs "s" "b" 100).batches_processed = 0 := by
  decide

/-- C9 amended: for every list of 250 jobs each of which builds against
the given templates, the dispatcher with batch size 100 issues exactly 3
outer batches of sizes 100, 100 and 50 and sleeps the inter-batch delay
exactly 2 times - after the first and second batch and not after the
last; a job whose synchronous construction raises instead aborts the
remaining batches and sleeps. -/
theorem c9_batch_pacing_amended (outcome : EmailTask → SendOutcome)
    (jobs : List EmailJobDict) (subject_template body_template : String)
    (h1 : jobs.length = 250)
    (h2 : ∀ d ∈ jobs, ∃ t, buildEmailTask subject_template body_template d = Except.ok t) :
    (send_bulk_emails outcome jobs subject_template body_template 100).outerBatchSizes
        = [100, 100, 50]
    ∧ (send_bulk_emails outcome jobs subject_template body_template 100).interBatchSleeps
        = 2 := by
  have t := send_bulk_emails_ok outcome jobs subject_template body_template 100 h2
  rw [h1] at t
  have e1 : outerSizesOfLen 100 250 = [100, 100, 50] := by decide
  rw [e1] at t
  exact ⟨t.2.1, by rw [t.2.2]; rfl⟩

/-- C9 witness: the amended pacing theorem at a concrete list of 250
well-formed jobs. -/
theorem c9_batch_pacing_amended_witness :
    (send_bulk_emails (fun _ => SendOutcome.ok) (List.replicate 250 okEmailJob) "s" "b"
        100).outerBatchSizes = [100, 100, 50]
    ∧ (send_bulk_emails (fun _ => SendOutcome.ok) (List.replicate 250 okEmailJob) "s" "b"
        100).interBatchSleeps = 2 :=
  c9_batch_pacing_amended (fun _ => SendOutcome.ok) (List.replicate 250 okEmailJob) "s" "b"
    (by rw [List.length_replicate])
    (by
      intro d hd
      rw [List.eq_of_mem_replicate hd]
      exact ⟨("a@b.c", "s", "b", ""), rfl⟩)

/-! ## Orchestrator claims -/

theorem statusIte (S : Nat) :
    (S > 0 → (if S > 0 then CampaignStatus.COMPLETED else CampaignStatus.CANCELLED)
        = CampaignStatus.COMPLETED)
    ∧ (S = 0 → (if S > 0 then CampaignStatus.COMPLETED else CampaignStatus.CANCELLED)
        = CampaignStatus.CANCELLED) := by
  split_ifs with hpos
  · exact ⟨fun _ => rfl, fun h0 => absurd hpos (by omega)⟩
  · exact ⟨fun hlt => absurd hlt hpos, fun _ => rfl⟩

/-- C1: for every campaign execution that completes its send phase (the
campaign row exists, target resolution is nonempty and the response
records commit), the final status is Completed when the summed successes
of the email and WhatsApp channels are positive and Cancelled otherwise. -/
theorem c1_final_status (env : ExecEnv) (opts : ExecOptions) (st : DbState) (c : Campaign)
    (h1 : env.campaign? = some c) (h2 : get_target_vendors env c ≠ [])
    (h3 : env.createResponsesOk = true) :
    ((execute_campaign env opts st).successful_emails
        + (execute_campaign env opts st).successful_whatsapp > 0 →
      (execute_campaign env opts st).state.status = CampaignStatus.COMPLETED)
    ∧ ((execute_campaign env opts st).successful_emails
        + (execute_campaign env opts st).successful_whatsapp = 0 →
      (execute_campaign env opts st).state.status = CampaignStatus.CANCELLED) := by
  obtain ⟨a, t, hV2⟩ : ∃ a t, get_target_vendors env c = a :: t := by
    cases hE : get_target_vendors env c with
    | nil => exact absurd hE h2
    | cons a t => exact ⟨a, t, rfl⟩
  simp only [execute_campaign, h1, hV2, h3, List.isEmpty_cons, Bool.not_true,
    Bool.false_eq_true, if_false]
  exact statusIte _

/-- Vendor, campaign, environment and initial state used to instantiate
the orchestrator theorems at concrete inputs. -/
def wVendor : Vendor :=
  { id := "v1", name := some "V", email := some "v1@example.com",
    whatsapp := some "9876543210" }

def wCampaign : Campaign :=
  { id := "c1", email_template_id := none, whatsapp_template_id := some "wt1" }

def wEnv : ExecEnv :=
  { campaign? := some wCampaign, vendorTable := [wVendor], emailTemplate? := none,
    whatsappTemplate? := some ({ content := "hello" } : WhatsAppTemplate),
    createResponsesOk := true, isUuid := fun _ => false, whatsappSendOk := fun _ => true }

def wOpts : ExecOptions := {}

def wSt : DbState := { status := CampaignStatus.DRAFT, responses := [] }

/-- C1 witness: the status theorem at a concrete single-vendor campaign. -/
theorem c1_final_status_witness :
    ((execute_campaign wEnv wOpts wSt).successful_emails
        + (execute_campaign wEnv wOpts wSt).successful_whatsapp > 0 →
      (execute_campaign wEnv wOpts wSt).state.status = CampaignStatus.COMPLETED)
    ∧ ((execute_campaign wEnv wOpts wSt).successful_emails
        + (execute_campaign wEnv wOpts wSt).successful_whatsapp = 0 →
      (execute_campaign wEnv wOpts wSt).state.status = CampaignStatus.CANCELLED) :=
  c1_final_status wEnv wOpts wSt wCampaign rfl (by decide) rfl

/-- C4: for every campaign whose target resolution yields zero vendors,
execution aborts with the database state unchanged: no response rows are
created, the status column keeps its prior value (Draft stays Draft), and
no WhatsApp send is attempted. -/
theorem c4_zero_vendors_untouched (env : ExecEnv) (opts : ExecOptions) (st : DbState)
    (c : Campaign) (h1 : env.campaign? = some c) (h2 : get_target_vendors env c = []) :
    (execute_campaign env opts st).state = st
    ∧ (execute_campaign env opts st).whatsappAttempted = [] := by
  simp [execute_campaign, h1, h2]

def wEnvEmpty : ExecEnv :=
  { campaign? := some wCampaign, vendorTable := [], emailTemplate? := none,
    whatsappTemplate? := some ({ content := "hello" } : WhatsAppTemplate),
    createResponsesOk := true, isUuid := fun _ => false, whatsappSendOk := fun _ => true }

/-- C4 witness: the zero-vendor theorem at a concrete empty vendor table. -/
theorem c4_zero_vendors_untouched_witness :
    (execute_campaign wEnvEmpty wOpts wSt).state = wSt
    ∧ (execute_campaign wEnvEmpty wOpts wSt).whatsappAttempted = [] :=
  c4_zero_vendors_untouched wEnvEmpty wOpts wSt wCampaign rfl rfl

/-- C5: for every campaign execution in which creating the per-vendor
Pending response records fails, the whole execution aborts before any
send is attempted on either channel: the database state (status column
included) is unchanged and both success counters are zero, so the
campaign is left in its prior (Draft) state rather than stuck. -/
theorem c5_response_failure_aborts (env : ExecEnv) (opts : ExecOptions) (st : DbState)
    (c : Campaign) (h1 : env.campaign? = some c) (h3 : env.createResponsesOk = false) :
    (execute_campaign env opts st).state = st
    ∧ (execute_campaign env opts st).whatsappAttempted = []
    ∧ (execute_campaign env opts st).successful_emails = 0
    ∧ (execute_campaign env opts st).successful_whatsapp = 0 := by
  simp only [execute_campaign, h1, h3, Bool.not_false, if_true]
  by_cases hv : (get_target_vendors env c).isEmpty = true
  · simp [hv]
  · simp [hv]

def wEnvFail : ExecEnv :=
  { campaign? := some wCampaign, vendorTable := [wVendor], emailTemplate? := none,
    whatsappTemplate? := some ({ content := "hello" } : WhatsAppTemplate),
    createResponsesOk := false, isUuid := fun _ => false, whatsappSendOk := fun _ => true }

/-- C5 witness: the record-creation-failure theorem at a concrete
environment whose response creation fails. -/
theorem c5_response_failure_aborts_witness :
    (execute_campaign wEnvFail wOpts wSt).state = wSt
    ∧ (execute_campaign wEnvFail wOpts wSt).whatsappAttempted = []
    ∧ (execute_campaign wEnvFail wOpts wSt).successful_emails = 0
    ∧ (execute_campaign wEnvFail wOpts wSt).successful_whatsapp = 0 :=
  c5_response_failure_aborts wEnvFail wOpts wSt wCampaign rfl rfl

/-! ## The dead email channel (C3) -/

/-- C3: for every campaign execution with test mode off and an email
template configured, the orchestrator's email result is 0 successful and
one failure per targeted vendor - the bulk call raises a caught TypeError
(orchestratorBulkEmailCall) - and, independently, reading the key
successful from the dictionary the real dispatcher returns always yields
the default 0, because that dictionary only has the keys total, sent,
failed, errors, batches_processed and batch_size. -/
theorem c3_email_channel_inert (env : ExecEnv) (vendors : List Vendor)
    (tmpl : EmailTemplate) (r : EmailBulkResults)
    (h : env.emailTemplate? = some tmpl) :
    execute_campaign_emails env vendors false = (0, vendors.length)
    ∧ dictGetNat (bulkResultsNatEntries r) "successful" 0 = 0 := by
  constructor
  · cases vendors with
    | nil => simp [execute_campaign_emails, h, orchestratorBulkEmailCall]
    | cons v vs => simp [execute_campaign_emails, h, orchestratorBulkEmailCall]
  · rfl

def wTmpl : EmailTemplate := { subject := "s", body := "b" }

def wEnvEmail : ExecEnv :=
  { campaign? := some wCampaign, vendorTable := [wVendor], emailTemplate? := some wTmpl,
    whatsappTemplate? := none, createResponsesOk := true,
    isUuid := fun _ => false, whatsappSendOk := fun _ => true }

def wBulk : EmailBulkResults :=
  { total := 3, sent := 2, failed := 1, errorCount := 1, batches_processed := 1,
    batch_size := 100, interBatchSleeps := 0, intraBatchSleeps := 0,
    outerBatchSizes := [3] }

/-- C3 witness: the inert-email theorem at a concrete environment with an
email template configured. -/
theorem c3_email_channel_inert_witness :
    execute_campaign_emails wEnvEmail [wVendor] false = (0, [wVendor].length)
    ∧ dictGetNat (bulkResultsNatEntries wBulk) "successful" 0 = 0 :=
  c3_email_channel_inert wEnvEmail [wVendor] wTmpl wBulk rfl

/-! ## Template round trip (C6) and variable precedence (C7) -/

/-- Vendor used for the concrete rendering facts; its name is Bob. -/
def rtVendor : Vendor := { id := "v0", name := some "Bob" }

/-- C6 counterexample: for the template holding the tokens of both styles,
rendering with the caller variables bound leaves the single-brace token
verbatim in the output (the structured Jinja2 path substitutes only the
double-brace token and does not fall back), so the output is not fully
literal-substituted and still holds a brace. -/
theorem c6_round_trip_counterexample :
    render_template "\x7b\x7ba\x7d\x7d \x7bb\x7d" rtVendor [("a", "X"), ("b", "Y")]
        = "X \x7bb\x7d"
    ∧ (render_template "\x7b\x7ba\x7d\x7d \x7bb\x7d" rtVendor
        [("a", "X"), ("b", "Y")]).data.contains '{' = true := by
  decide

/-- C6 amended: extract_variables on the template holding the tokens of
both styles returns exactly the names a and b; the simple-substitution
renderer substitutes both styles, yielding the literal-substituted string
with no remaining brace; but the default structured path substitutes only
the double-brace token and leaves the single-brace token verbatim. -/
theorem c6_round_trip_amended :
    extract_variables "\x7b\x7ba\x7d\x7d \x7bb\x7d" = ["a", "b"]
    ∧ simple_template_render "\x7b\x7ba\x7d\x7d \x7bb\x7d" rtVendor [("a", "X"), ("b", "Y")]
        = "X Y"
    ∧ ("X Y".data.contains '{' = false)
    ∧ render_template "\x7b\x7ba\x7d\x7d \x7bb\x7d" rtVendor [("a", "X"), ("b", "Y")]
        = "X \x7bb\x7d" := by
  decide

/-- C7 counterexample: on the simple-substitution fallback path, a caller
variable sharing its name with a vendor variable does not override it:
the vendor replacement runs first, so the vendor name Bob is substituted
where the caller supplied Alice. -/
theorem c7_precedence_counterexample :
    simple_template_render "\x7bvendor_name\x7d" rtVendor [("vendor_name", "Alice")]
        = "Bob"
    ∧ ("Bob" : String) ≠ "Alice" := by
  decide

theorem lookupVar_append_left (extra base : List (String × String)) (name value : String)
    (h : lookupVar extra name = some value) :
    lookupVar (extra ++ base) name = some value := by
  induction extra with
  | nil => simp [lookupVar, List.find?] at h
  | cons kv t ih =>
    unfold lookupVar at h ⊢
    rw [List.cons_append]
    cases hk : (kv.1 == name) with
    | true =>
      simp only [List.find?, hk] at h ⊢
      exact h
    | false =>
      simp only [List.find?, hk] at h ⊢
      exact ih h

/-- C7 amended: on the structured path the variable map handed to the
renderer resolves every name bound by the caller to the caller's value
(template_vars.update gives caller-supplied variables precedence), as the
concrete render of the double-brace token to Alice shows; on the
simple-substitution fallback path the vendor-derived value wins for a
shared name, because the vendor replacements run first. -/
theorem c7_precedence_amended (v : Vendor) (varMap : List (String × String))
    (name value : String) (h : lookupVar varMap name = some value) :
    lookupVar (updateVars (get_vendor_variables v) varMap) name = some value
    ∧ render_template "\x7b\x7bvendor_name\x7d\x7d" rtVendor [("vendor_name", "Alice")]
        = "Alice"
    ∧ simple_template_render "\x7bvendor_name\x7d" rtVendor [("vendor_name", "Alice")]
        = "Bob" :=
  ⟨lookupVar_append_left varMap (get_vendor_variables v) name value h, by decide, by decide⟩

/-- C7 witness: the precedence theorem at a concrete caller variable map. -/
theorem c7_precedence_amended_witness :
    lookupVar (updateVars (get_vendor_variables rtVendor) [("city", "Pune")]) "city"
        = some "Pune"
    ∧ render_template "\x7b\x7bvendor_name\x7d\x7d" rtVendor [("vendor_name", "Alice")]
        = "Alice"
    ∧ simple_template_render "\x7bvendor_name\x7d" rtVendor [("vendor_name", "Alice")]
        = "Bob" :=
  c7_precedence_amended rtVendor [("city", "Pune")] "city" "Pune" rfl

/-! ## Phone normalization (C8) -/

/-- C8 counterexample: normalization does not strip every non-digit other
than a leading plus: on an input holding an interior plus sign, the plus
survives into the accepted output at a non-leading position (the filter
keeps every plus and only one leading plus is removed). -/
theorem c8_phone_counterexample :
    clean_phone_number "12+345678901" = "12+345678901"
    ∧ (clean_phone_number "12+345678901").data.contains '+' = true
    ∧ (clean_phone_number "12+345678901").data.head? ≠ some '+' := by
  decide

theorem phoneFiltered_chars (p : String) :
    ∀ c ∈ phoneFiltered p, c.isDigit = true ∨ c = '+' := by
  intro c hc
  have h2 := (List.mem_filter.mp hc).2
  simp only [Bool.or_eq_true, decide_eq_true_eq] at h2
  exact h2

theorem phoneDeplussed_subset (l : List Char) :
    ∀ c ∈ phoneDeplussed l, c ∈ l := by
  intro c hc
  unfold phoneDeplussed at hc
  by_cases hh : l.head? = some '+'
  · rw [if_pos hh] at hc
    exact List.mem_of_mem_tail hc
  · rwa [if_neg hh] at hc

theorem phonePrefixed_chars (l : List Char)
    (hl : ∀ c ∈ l, c.isDigit = true ∨ c = '+') :
    ∀ c ∈ phonePrefixed l, c.isDigit = true ∨ c = '+' := by
  intro c hc
  unfold phonePrefixed at hc
  by_cases hh : (l.length = 10 &&
      (l.head? = some '9' || l.head? = some '8' ||
       l.head? = some '7' || l.head? = some '6')) = true
  · rw [if_pos hh] at hc
    simp only [List.mem_cons] at hc
    rcases hc with h9 | h1 | hmem
    · exact Or.inl (by rw [h9]; decide)
    · exact Or.inl (by rw [h1]; decide)
    · exact hl c hmem
  · rw [if_neg hh] at hc
    exact hl c hc

/-- C8 amended: normalization keeps digits and plus signs (so an interior
plus can survive, amending only the stripping clause), removes one
leading plus, adds the default country prefix to a 10-character number
starting with a mobile-range digit, and rejects (returns the empty
string) any result whose length falls outside 10 to 15: every accepted
output has between 10 and 15 characters, each a digit or a plus sign; in
particular 9876543210 gains the 91 prefix, the formatted +91 number
normalizes to the same digits, and 123 is rejected. -/
theorem c8_phone_amended (s : String) (h : clean_phone_number s ≠ "") :
    (10 ≤ (clean_phone_number s).data.length
      ∧ (clean_phone_number s).data.length ≤ 15
      ∧ ∀ c ∈ (clean_phone_number s).data, c.isDigit = true ∨ c = '+')
    ∧ clean_phone_number "9876543210" = "919876543210"
    ∧ clean_phone_number "+91 98765 43210" = "919876543210"
    ∧ clean_phone_number "123" = "" := by
  refine ⟨?_, by decide, by decide, by decide⟩
  unfold clean_phone_number at h ⊢
  by_cases hs : s = ""
  · exact absurd (if_pos hs) h
  · rw [if_neg hs] at h ⊢
    by_cases hlen : ((phonePrefixed (phoneDeplussed (phoneFiltered s))).length < 10
        || (phonePrefixed (phoneDeplussed (phoneFiltered s))).length > 15) = true
    · exact absurd (if_pos hlen) h
    · rw [if_neg hlen] at h ⊢
      have hb := Bool.or_eq_false_iff.mp (Bool.not_eq_true _ |>.mp hlen)
      have h10 : ¬ (phonePrefixed (phoneDeplussed (phoneFiltered s))).length < 10 := by
        simpa using hb.1
      have h15 : ¬ (phonePrefixed (phoneDeplussed (phoneFiltered s))).length > 15 := by
        simpa using hb.2
      refine ⟨by simpa using h10, by simpa using h15, ?_⟩
      intro c hc
      exact phonePrefixed_chars _
        (fun c hc2 => phoneFiltered_chars s c (phoneDeplussed_subset _ c hc2)) c hc

/-- C8 witness: the amended normalization theorem at the first concrete
example. -/
theorem c8_phone_amended_witness :
    (10 ≤ (clean_phone_number "9876543210").data.length
      ∧ (clean_phone_number "9876543210").data.length ≤ 15
      ∧ ∀ c ∈ (clean_phone_number "9876543210").data, c.isDigit = true ∨ c = '+')
    ∧ clean_phone_number "9876543210" = "919876543210"
    ∧ clean_phone_number "+91 98765 43210" = "919876543210"
    ∧ clean_phone_number "123" = "" :=
  c8_phone_amended "9876543210" (by decide)

/-! ## Target resolution and channels (C10) -/

/-- Vendor with an email address but no WhatsApp number, and a campaign
with only the WhatsApp channel configured. -/
def cxVendor : Vendor :=
  { id := "v1", name := some "V", email := some "v1@example.com", whatsapp := none }

def cxCampaign : Campaign :=
  { id := "c1", email_template_id := none, whatsapp_template_id := some "wt1" }

def cxEnv : ExecEnv :=
  { campaign? := some cxCampaign, vendorTable := [cxVendor], emailTemplate? := none,
    whatsappTemplate? := some ({ content := "hello" } : WhatsAppTemplate),
    createResponsesOk := true, isUuid := fun _ => false, whatsappSendOk := fun _ => false }

/-- C10 counterexample: target resolution only filters on the email
column, so a WhatsApp-channel execution does target a vendor without any
WhatsApp number: the vendor with whatsapp = none is resolved as a target
and the WhatsApp loop calls the client for it. -/
theorem c10_channel_filter_counterexample :
    cxVendor.whatsapp = none
    ∧ cxVendor ∈ get_target_vendors cxEnv cxCampaign
    ∧ (execute_campaign cxEnv wOpts wSt).whatsappAttempted = [cxVendor.id] := by
  decide

/-- C10 amended: target resolution always excludes vendors whose email
column is NULL, for both channels; it applies no WhatsApp-number filter,
so WhatsApp sends may target vendors lacking a WhatsApp number (the
counterexample exhibits one). -/
theorem c10_resolution_requires_email (env : ExecEnv) (c : Campaign) (v : Vendor)
    (h : v ∈ get_target_vendors env c) : v.email ≠ none := by
  unfold get_target_vendors at h
  have hmem := (List.mem_filter.mp h).2
  intro hn
  rw [hn] at hmem
  simp at hmem

/-- C10 witness: the email-exclusion theorem at the concrete resolved
vendor. -/
theorem c10_resolution_requires_email_witness : cxVendor.email ≠ none :=
  c10_resolution_requires_email cxEnv cxCampaign cxVendor (by decide)

end MsmeCampaign
